import Mathlib

/-!
# fluentd-sidecar-injector: the admission mutator of `server/server.go`

A shallow embedding of `sidecarInjectMutator` and of the Kubernetes values it
reads and writes, followed by theorems about it.

Conventions of the embedding:

* Go strings are Lean `String`s; `len(s)` is the byte length `String.utf8ByteSize`.
* A Go `map[string]string` is an association list read with `List.lookup`
  (the mutator only reads maps; it never writes one).
* Go slices are lists; `append(s, x)` is `s ++ [x]`. A guarded append
  `if c { sidecar.Env = append(sidecar.Env, x) }` assigns the field the value
  `if c then sidecar.Env ++ [x] else sidecar.Env`.
* The mutator updates the Pod behind a pointer; here it returns the Pod as it
  stands when the function returns, together with the two Go results.
* `envconfig.Process("fluentd", &fluentdEnv)` fills the `Env` record from the
  process environment; the record is an argument of the embedded function.
-/

namespace Server

/-! ## Kubernetes values -/

/-- The `resource.Format` of a quantity. -/
inductive Format where
  | DecimalExponent
  | BinarySI
  | DecimalSI
deriving DecidableEq, Repr

/-- A `resource.Quantity` in its int64 representation: `value * 10 ^ scale`. -/
structure Quantity where
  value : Int
  scale : Int
  format : Format
deriving DecidableEq, Repr

/-- The constructor `resource.NewQuantity`: a whole number of units. -/
def NewQuantity (value : Int) (format : Format) : Quantity :=
  { value := value, scale := 0, format := format }

/-- The constructor `resource.NewMilliQuantity`: a number of thousandths of a unit. -/
def NewMilliQuantity (value : Int) (format : Format) : Quantity :=
  { value := value, scale := -3, format := format }

/-- The resource name `corev1.ResourceMemory`. -/
def ResourceMemory : String := "memory"

/-- The resource name `corev1.ResourceCPU`. -/
def ResourceCPU : String := "cpu"

/-- The type `corev1.ResourceRequirements`; the two resource maps list their entries in
the order the source's map literals write them. -/
structure ResourceRequirements where
  Limits : List (String × Quantity) := []
  Requests : List (String × Quantity) := []
deriving DecidableEq, Repr

/-- The type `corev1.EnvVar`. -/
structure EnvVar where
  Name : String := ""
  Value : String := ""
deriving DecidableEq, Repr

/-- The type `corev1.VolumeMount`. -/
structure VolumeMount where
  Name : String := ""
  ReadOnly : Bool := false
  MountPath : String := ""
  SubPath : String := ""
deriving DecidableEq, Repr

/-- The type `corev1.Container`: the fields the mutator sets, and further fields it
leaves alone. Every field defaults to its Go zero value. -/
structure Container where
  Name : String := ""
  Image : String := ""
  Command : List String := []
  Args : List String := []
  WorkingDir : String := ""
  Env : List EnvVar := []
  Resources : ResourceRequirements := {}
  VolumeMounts : List VolumeMount := []
deriving DecidableEq, Repr

/-- The type `corev1.EmptyDirVolumeSource`. -/
structure EmptyDirVolumeSource where
  Medium : String := ""
  SizeLimit : Option Quantity := none
deriving DecidableEq, Repr

/-- The type `corev1.VolumeSource`: each kind is an optional pointer, nil by default. -/
structure VolumeSource where
  HostPath : Option String := none
  EmptyDir : Option EmptyDirVolumeSource := none
  Secret : Option String := none
deriving DecidableEq, Repr

/-- The type `corev1.Volume`. -/
structure Volume where
  Name : String := ""
  Source : VolumeSource := {}
deriving DecidableEq, Repr

/-- The type `corev1.PodSpec`. -/
structure PodSpec where
  Volumes : List Volume := []
  InitContainers : List Container := []
  Containers : List Container := []
deriving DecidableEq, Repr

/-- The type `corev1.Pod`: object metadata (with the annotation map) and the spec. -/
structure Pod where
  Name : String := ""
  Namespace : String := ""
  Labels : List (String × String) := []
  Annotations : List (String × String) := []
  Spec : PodSpec := {}
deriving DecidableEq, Repr

/-- A `metav1.Object` handed to the mutator: a `*corev1.Pod`, or an object of
another kind. -/
inductive Object where
  | pod (p : Pod)
  | other (kind : String) (name : String)
deriving DecidableEq, Repr

/-! ## The program -/

/-- The package variable `annotationPrefix`. -/
def annotationPrefix : String := "fluentd-sidecar-injector.h3poteto.dev"

/-- The record `Env` of process-wide defaults. -/
structure Env where
  DockerImage : String
  ApplicationLogDir : String
  TimeFormat : String
  TimeKey : String
  TagPrefix : String
  AggregatorHost : String
  AggregatorPort : String
deriving DecidableEq, Repr

/-- The `default:"..."` tags of `Env`: the record `envconfig.Process` yields
when none of the environment variables is set. -/
def defaultEnv : Env :=
  { DockerImage := "h3poteto/fluentd-forward:latest"
    ApplicationLogDir := ""
    TimeFormat := "%Y-%m-%dT%H:%M:%S%z"
    TimeKey := "time"
    TagPrefix := "app"
    AggregatorHost := ""
    AggregatorPort := "24224" }

/-- Go's one-result map index `m[key]`: the zero value when the key is absent. -/
def mapIndex (m : List (String × String)) (key : String) : String :=
  match m.lookup key with
  | some value => value
  | none => ""

/-- The statement `if value, ok := m[key]; ok { x = value }`: the new value of
`x`, whose value before the statement is `current`. -/
def annotationOr (m : List (String × String)) (key : String) (current : String) : String :=
  match m.lookup key with
  | some value => value
  | none => current

/-- What a call of the mutator leaves behind: the object as it stands after the
call, and the results `stop` and `err` (`errors.New msg` is `some msg`). -/
structure MutatorResult where
  obj : Object
  stop : Bool
  err : Option String
deriving DecidableEq, Repr

/-- The function `sidecarInjectMutator`, statement by statement. -/
def sidecarInjectMutator (fluentdEnv : Env) (obj : Object) : MutatorResult :=
  match obj with
  | .other kind name => { obj := .other kind name, stop := false, err := none }
  | .pod pod =>
    if mapIndex pod.Annotations (annotationPrefix ++ "/injection") ≠ "enabled" then
      { obj := .pod pod, stop := false, err := none }
    else
      let dockerImage :=
        annotationOr pod.Annotations (annotationPrefix ++ "/docker-image") fluentdEnv.DockerImage
      let volumeName := "fluentd-sidecar-injector-logs"
      let pod : Pod :=
        { pod with
          Spec := { pod.Spec with
            Volumes := pod.Spec.Volumes ++
              [{ Name := volumeName, Source := { EmptyDir := some {} } }] } }
      let sidecar : Container :=
        { Name := "fluentd-sidecar"
          Image := dockerImage
          Resources :=
            { Requests :=
                [ (ResourceMemory, NewQuantity (200 * 1024 * 1024) Format.BinarySI),
                  (ResourceCPU, NewMilliQuantity 100 Format.DecimalSI) ]
              Limits :=
                [ (ResourceMemory, NewQuantity (1000 * 1024 * 1024) Format.BinarySI) ] } }
      let sendTimeout :=
        annotationOr pod.Annotations (annotationPrefix ++ "/send-timeout") "60s"
      let sidecar : Container :=
        { sidecar with Env := sidecar.Env ++ [{ Name := "SEND_TIMEOUT", Value := sendTimeout }] }
      let recoverWait :=
        annotationOr pod.Annotations (annotationPrefix ++ "/recover-wait") "10s"
      let sidecar : Container :=
        { sidecar with Env := sidecar.Env ++ [{ Name := "RECOVER_WAIT", Value := recoverWait }] }
      let hardTimeout :=
        annotationOr pod.Annotations (annotationPrefix ++ "/hard-timeout") "120s"
      let sidecar : Container :=
        { sidecar with Env := sidecar.Env ++ [{ Name := "HARD_TIMEOUT", Value := hardTimeout }] }
      let aggregatorHost :=
        annotationOr pod.Annotations (annotationPrefix ++ "/aggregator-host")
          fluentdEnv.AggregatorHost
      if aggregatorHost.utf8ByteSize = 0 then
        { obj := .pod pod, stop := false, err := some "aggregator host is required" }
      else
        let sidecar : Container :=
          { sidecar with
            Env := sidecar.Env ++ [{ Name := "AGGREGATOR_HOST", Value := aggregatorHost }] }
        let aggregatorPort :=
          annotationOr pod.Annotations (annotationPrefix ++ "/aggregator-port")
            fluentdEnv.AggregatorPort
        let sidecar : Container :=
          { sidecar with
            Env :=
              if aggregatorPort.utf8ByteSize > 0 then
                sidecar.Env ++ [{ Name := "AGGREGATOR_PORT", Value := aggregatorPort }]
              else sidecar.Env }
        let applicationLogDir :=
          annotationOr pod.Annotations (annotationPrefix ++ "/application-log-dir")
            fluentdEnv.ApplicationLogDir
        if applicationLogDir.utf8ByteSize = 0 then
          { obj := .pod pod, stop := false, err := some "application log dir is required" }
        else
          let sidecar : Container :=
            { sidecar with
              Env := sidecar.Env ++
                [{ Name := "APPLICATION_LOG_DIR", Value := applicationLogDir }] }
          let volumeMount : VolumeMount :=
            { Name := volumeName, ReadOnly := false, MountPath := applicationLogDir }
          let sidecar : Container := { sidecar with VolumeMounts := [volumeMount] }
          let tagPrefix :=
            annotationOr pod.Annotations (annotationPrefix ++ "/tag-prefix") fluentdEnv.TagPrefix
          let sidecar : Container :=
            { sidecar with
              Env :=
                if tagPrefix.utf8ByteSize > 0 then
                  sidecar.Env ++ [{ Name := "TAG_PREFIX", Value := tagPrefix }]
                else sidecar.Env }
          let timeKey :=
            annotationOr pod.Annotations (annotationPrefix ++ "/time-key") fluentdEnv.TimeKey
          let sidecar : Container :=
            { sidecar with
              Env :=
                if timeKey.utf8ByteSize > 0 then
                  sidecar.Env ++ [{ Name := "TIME_KEY", Value := timeKey }]
                else sidecar.Env }
          let timeFormat :=
            annotationOr pod.Annotations (annotationPrefix ++ "/time-format") fluentdEnv.TimeFormat
          let sidecar : Container :=
            { sidecar with
              Env :=
                if timeFormat.utf8ByteSize > 0 then
                  sidecar.Env ++ [{ Name := "TIME_FORMAT", Value := timeFormat }]
                else sidecar.Env }
          let containers : List Container :=
            pod.Spec.Containers.foldl
              (fun containers container =>
                let container : Container :=
                  { container with VolumeMounts := container.VolumeMounts ++ [volumeMount] }
                containers ++ [container])
              []
          let containers := containers ++ [sidecar]
          let pod : Pod := { pod with Spec := { pod.Spec with Containers := containers } }
          { obj := .pod pod, stop := false, err := none }

/-! ## Observations and closed forms used by the theorems -/

/-- The containers of the Pod a call leaves behind (none for another kind of object). -/
def MutatorResult.containers (r : MutatorResult) : List Container :=
  match r.obj with
  | .pod p => p.Spec.Containers
  | .other _ _ => []

/-- The volumes of the Pod a call leaves behind (none for another kind of object). -/
def MutatorResult.volumes (r : MutatorResult) : List Volume :=
  match r.obj with
  | .pod p => p.Spec.Volumes
  | .other _ _ => []

/-- Closed form of the environment list the mutator builds on its successful path. -/
def sidecarEnvList (fluentdEnv : Env) (m : List (String × String)) : List EnvVar :=
  [ { Name := "SEND_TIMEOUT", Value := annotationOr m (annotationPrefix ++ "/send-timeout") "60s" },
    { Name := "RECOVER_WAIT", Value := annotationOr m (annotationPrefix ++ "/recover-wait") "10s" },
    { Name := "HARD_TIMEOUT", Value := annotationOr m (annotationPrefix ++ "/hard-timeout") "120s" },
    { Name := "AGGREGATOR_HOST",
      Value := annotationOr m (annotationPrefix ++ "/aggregator-host") fluentdEnv.AggregatorHost } ]
  ++ (if annotationOr m (annotationPrefix ++ "/aggregator-port") fluentdEnv.AggregatorPort = "" then []
      else [{ Name := "AGGREGATOR_PORT",
              Value := annotationOr m (annotationPrefix ++ "/aggregator-port") fluentdEnv.AggregatorPort }])
  ++ [ { Name := "APPLICATION_LOG_DIR",
         Value := annotationOr m (annotationPrefix ++ "/application-log-dir")
           fluentdEnv.ApplicationLogDir } ]
  ++ (if annotationOr m (annotationPrefix ++ "/tag-prefix") fluentdEnv.TagPrefix = "" then []
      else [{ Name := "TAG_PREFIX",
              Value := annotationOr m (annotationPrefix ++ "/tag-prefix") fluentdEnv.TagPrefix }])
  ++ (if annotationOr m (annotationPrefix ++ "/time-key") fluentdEnv.TimeKey = "" then []
      else [{ Name := "TIME_KEY",
              Value := annotationOr m (annotationPrefix ++ "/time-key") fluentdEnv.TimeKey }])
  ++ (if annotationOr m (annotationPrefix ++ "/time-format") fluentdEnv.TimeFormat = "" then []
      else [{ Name := "TIME_FORMAT",
              Value := annotationOr m (annotationPrefix ++ "/time-format") fluentdEnv.TimeFormat }])

/-- Closed form of the volume mount the mutator shares between the containers. -/
def logMount (fluentdEnv : Env) (m : List (String × String)) : VolumeMount :=
  { Name := "fluentd-sidecar-injector-logs"
    ReadOnly := false
    MountPath := annotationOr m (annotationPrefix ++ "/application-log-dir")
      fluentdEnv.ApplicationLogDir }

/-- Closed form of the sidecar container the mutator appends on its successful path. -/
def sidecarContainer (fluentdEnv : Env) (m : List (String × String)) : Container :=
  { Name := "fluentd-sidecar"
    Image := annotationOr m (annotationPrefix ++ "/docker-image") fluentdEnv.DockerImage
    Env := sidecarEnvList fluentdEnv m
    Resources :=
      { Requests := [ ("memory", ⟨200 * 1024 * 1024, 0, Format.BinarySI⟩),
                      ("cpu", ⟨100, -3, Format.DecimalSI⟩) ]
        Limits := [ ("memory", ⟨1000 * 1024 * 1024, 0, Format.BinarySI⟩) ] }
    VolumeMounts := [logMount fluentdEnv m] }

/-- Closed form of the volume the mutator appends. -/
def logVolume : Volume :=
  { Name := "fluentd-sidecar-injector-logs", Source := { EmptyDir := some {} } }

/-- Closed form of the Pod after a successful mutation. -/
def mutatedPod (fluentdEnv : Env) (pod : Pod) : Pod :=
  { pod with
    Spec := { pod.Spec with
      Volumes := pod.Spec.Volumes ++ [logVolume]
      Containers :=
        pod.Spec.Containers.map
          (fun c => { c with VolumeMounts := c.VolumeMounts ++ [logMount fluentdEnv pod.Annotations] })
        ++ [sidecarContainer fluentdEnv pod.Annotations] } }

/-! ## Example inputs -/

/-- A Pod whose gate annotation is present with a value other than "enabled". -/
def disabledPod : Pod :=
  { Name := "web"
    Annotations :=
      [ (annotationPrefix ++ "/injection", "disabled"),
        (annotationPrefix ++ "/aggregator-host", "agg.example.com") ]
    Spec :=
      { Volumes := [{ Name := "data", Source := { HostPath := some "/data" } }]
        Containers := [{ Name := "app", Image := "nginx" }] } }

/-- A gate-enabled Pod that names neither an aggregator host nor a log directory. -/
def bareEnabledPod : Pod :=
  { Name := "web"
    Annotations := [ (annotationPrefix ++ "/injection", "enabled") ]
    Spec :=
      { Volumes := [{ Name := "data", Source := { HostPath := some "/data" } }]
        Containers :=
          [{ Name := "app", Image := "nginx",
             VolumeMounts := [{ Name := "data", MountPath := "/data" }] }] } }

/-- A gate-enabled Pod that names an aggregator host but no log directory. -/
def hostOnlyPod : Pod :=
  { Name := "web"
    Annotations :=
      [ (annotationPrefix ++ "/injection", "enabled"),
        (annotationPrefix ++ "/aggregator-host", "agg.example.com") ]
    Spec := { Containers := [{ Name := "app", Image := "nginx" }] } }

/-- A gate-enabled Pod with two containers that names an aggregator host and a
log directory and carries no other annotation. -/
def examplePod : Pod :=
  { Name := "web"
    Annotations :=
      [ (annotationPrefix ++ "/injection", "enabled"),
        (annotationPrefix ++ "/aggregator-host", "agg.example.com"),
        (annotationPrefix ++ "/application-log-dir", "/var/log/app") ]
    Spec :=
      { Volumes := [{ Name := "data", Source := { HostPath := some "/data" } }]
        Containers :=
          [ { Name := "A", Image := "nginx",
              VolumeMounts := [{ Name := "data", MountPath := "/data" }] },
            { Name := "B", Image := "redis" } ] } }

/-- A gate-enabled Pod with host and log directory whose aggregator-port
annotation is present with the empty string. -/
def emptyPortPod : Pod :=
  { Name := "web"
    Annotations :=
      [ (annotationPrefix ++ "/injection", "enabled"),
        (annotationPrefix ++ "/aggregator-host", "agg.example.com"),
        (annotationPrefix ++ "/application-log-dir", "/var/log/app"),
        (annotationPrefix ++ "/aggregator-port", "") ]
    Spec := { Containers := [{ Name := "app", Image := "nginx" }] } }

/-- A gate-enabled Pod that overrides every field by an annotation. -/
def overridingPod : Pod :=
  { Name := "web"
    Annotations :=
      [ (annotationPrefix ++ "/injection", "enabled"),
        (annotationPrefix ++ "/docker-image", "example/fluentd:1"),
        (annotationPrefix ++ "/send-timeout", "30s"),
        (annotationPrefix ++ "/recover-wait", "5s"),
        (annotationPrefix ++ "/hard-timeout", "90s"),
        (annotationPrefix ++ "/aggregator-host", "agg.example.com"),
        (annotationPrefix ++ "/aggregator-port", "24225"),
        (annotationPrefix ++ "/application-log-dir", "/var/log/app"),
        (annotationPrefix ++ "/tag-prefix", "web"),
        (annotationPrefix ++ "/time-key", "ts"),
        (annotationPrefix ++ "/time-format", "%s") ]
    Spec := { Containers := [{ Name := "app", Image := "nginx" }] } }

/-- The Pod of the worked example: any Pod whose containers are A and B and whose
only annotations are injection=enabled, aggregator-host=agg.example.com and
application-log-dir=/var/log/app. -/
def workedExamplePod (base : Pod) (A B : Container) : Pod :=
  { base with
    Annotations :=
      [ (annotationPrefix ++ "/injection", "enabled"),
        (annotationPrefix ++ "/aggregator-host", "agg.example.com"),
        (annotationPrefix ++ "/application-log-dir", "/var/log/app") ]
    Spec := { base.Spec with Containers := [A, B] } }

/-- A gate-enabled Pod with host and log directory whose send-timeout annotation
is present with the empty string. -/
def emptyTimeoutPod : Pod :=
  { Name := "web"
    Annotations :=
      [ (annotationPrefix ++ "/injection", "enabled"),
        (annotationPrefix ++ "/aggregator-host", "agg.example.com"),
        (annotationPrefix ++ "/application-log-dir", "/var/log/app"),
        (annotationPrefix ++ "/send-timeout", "") ]
    Spec := { Containers := [{ Name := "app", Image := "nginx" }] } }

/-- A record of process defaults in which the aggregator host and the log
directory are set and the other fields have their tag defaults. -/
def configuredEnv : Env :=
  { defaultEnv with AggregatorHost := "agg.internal", ApplicationLogDir := "/var/log/app" }

/-- A Pod with the annotations of examplePod and other containers and volumes. -/
def examplePodVariant : Pod :=
  { Name := "batch"
    Annotations := examplePod.Annotations
    Spec :=
      { Volumes := []
        Containers := [ { Name := "worker", Image := "busybox", Args := ["sleep", "60"] } ] } }

/-! ## Auxiliary lemmas -/

theorem utf8ByteSize_go_pos (c : Char) (cs : List Char) :
    0 < String.utf8ByteSize.go (c :: cs) := by
  simp only [String.utf8ByteSize.go]
  have := Char.utf8Size_pos c
  omega

theorem utf8ByteSize_eq_zero_iff (s : String) : s.utf8ByteSize = 0 ↔ s = "" := by
  constructor
  · intro h
    rcases s with ⟨cs⟩
    cases cs with
    | nil => rfl
    | cons c cs =>
      have := utf8ByteSize_go_pos c cs
      simp only [String.utf8ByteSize] at h
      omega
  · rintro rfl; rfl

theorem utf8ByteSize_pos_iff (s : String) : s.utf8ByteSize > 0 ↔ s ≠ "" := by
  rw [← not_iff_not, not_not, ← utf8ByteSize_eq_zero_iff]; omega

theorem foldl_snoc_eq_map {α β : Type} (f : α → β) (xs : List α) (init : List β) :
    xs.foldl (fun acc x => acc ++ [f x]) init = init ++ xs.map f := by
  induction xs generalizing init with
  | nil => simp
  | cons x xs ih => simp [ih]

theorem mapIndex_eq_iff_of_ne_empty (m : List (String × String)) (key v : String) (hv : v ≠ "") :
    mapIndex m key = v ↔ m.lookup key = some v := by
  unfold mapIndex
  cases h : m.lookup key with
  | none => simp; exact fun h => hv h.symm
  | some w => simp

theorem sidecarInjectMutator_pod_eq (fluentdEnv : Env) (pod : Pod)
    (hgate : pod.Annotations.lookup (annotationPrefix ++ "/injection") = some "enabled") :
    sidecarInjectMutator fluentdEnv (.pod pod) =
      if annotationOr pod.Annotations (annotationPrefix ++ "/aggregator-host")
          fluentdEnv.AggregatorHost = "" then
        { obj := .pod { pod with Spec := { pod.Spec with Volumes := pod.Spec.Volumes ++ [logVolume] } }
          stop := false, err := some "aggregator host is required" }
      else if annotationOr pod.Annotations (annotationPrefix ++ "/application-log-dir")
          fluentdEnv.ApplicationLogDir = "" then
        { obj := .pod { pod with Spec := { pod.Spec with Volumes := pod.Spec.Volumes ++ [logVolume] } }
          stop := false, err := some "application log dir is required" }
      else
        { obj := .pod (mutatedPod fluentdEnv pod), stop := false, err := none } := by
  have hg : mapIndex pod.Annotations (annotationPrefix ++ "/injection") = "enabled" :=
    (mapIndex_eq_iff_of_ne_empty _ _ _ (by decide)).2 hgate
  simp only [sidecarInjectMutator, hg, ne_eq, not_true_eq_false, if_false,
    utf8ByteSize_eq_zero_iff, utf8ByteSize_pos_iff, foldl_snoc_eq_map]
  split_ifs <;> simp [mutatedPod, sidecarContainer, sidecarEnvList, logMount, logVolume, *, NewQuantity, NewMilliQuantity, ResourceMemory, ResourceCPU]

theorem mapIndex_injection_eq_iff (m : List (String × String)) :
    mapIndex m (annotationPrefix ++ "/injection") = "enabled" ↔
      m.lookup (annotationPrefix ++ "/injection") = some "enabled" :=
  mapIndex_eq_iff_of_ne_empty m _ _ (by decide)

theorem sidecarInjectMutator_pod_of_gate_closed (fluentdEnv : Env) (pod : Pod)
    (hgate : pod.Annotations.lookup (annotationPrefix ++ "/injection") ≠ some "enabled") :
    sidecarInjectMutator fluentdEnv (.pod pod) = { obj := .pod pod, stop := false, err := none } := by
  have hg : mapIndex pod.Annotations (annotationPrefix ++ "/injection") ≠ "enabled" :=
    fun h => hgate ((mapIndex_injection_eq_iff _).1 h)
  simp only [sidecarInjectMutator, hg, ne_eq, not_false_eq_true, if_true]

theorem annotationOr_of_lookup_some (m : List (String × String)) (key current v : String)
    (h : m.lookup key = some v) : annotationOr m key current = v := by
  simp only [annotationOr, h]

theorem annotationOr_of_lookup_none (m : List (String × String)) (key current : String)
    (h : m.lookup key = none) : annotationOr m key current = current := by
  simp only [annotationOr, h]

theorem sidecarInjectMutator_pod_of_success (fluentdEnv : Env) (pod : Pod)
    (hgate : pod.Annotations.lookup (annotationPrefix ++ "/injection") = some "enabled")
    (hok : (sidecarInjectMutator fluentdEnv (.pod pod)).err = none) :
    (annotationOr pod.Annotations (annotationPrefix ++ "/aggregator-host")
        fluentdEnv.AggregatorHost ≠ "" ∧
      annotationOr pod.Annotations (annotationPrefix ++ "/application-log-dir")
        fluentdEnv.ApplicationLogDir ≠ "") ∧
    sidecarInjectMutator fluentdEnv (.pod pod) =
      { obj := .pod (mutatedPod fluentdEnv pod), stop := false, err := none } := by
  rw [sidecarInjectMutator_pod_eq fluentdEnv pod hgate] at hok ⊢
  by_cases hh : annotationOr pod.Annotations (annotationPrefix ++ "/aggregator-host")
      fluentdEnv.AggregatorHost = ""
  · rw [if_pos hh] at hok; cases hok
  · by_cases hd : annotationOr pod.Annotations (annotationPrefix ++ "/application-log-dir")
        fluentdEnv.ApplicationLogDir = ""
    · rw [if_neg hh, if_pos hd] at hok; cases hok
    · rw [if_neg hh, if_neg hd]; exact ⟨⟨hh, hd⟩, rfl⟩

theorem containers_of_success (fluentdEnv : Env) (pod : Pod)
    (hgate : pod.Annotations.lookup (annotationPrefix ++ "/injection") = some "enabled")
    (hok : (sidecarInjectMutator fluentdEnv (.pod pod)).err = none) :
    (sidecarInjectMutator fluentdEnv (.pod pod)).containers =
      pod.Spec.Containers.map
          (fun c =>
            { c with VolumeMounts := c.VolumeMounts ++ [logMount fluentdEnv pod.Annotations] })
        ++ [sidecarContainer fluentdEnv pod.Annotations] := by
  rw [(sidecarInjectMutator_pod_of_success fluentdEnv pod hgate hok).2]
  rfl

theorem volumes_of_success (fluentdEnv : Env) (pod : Pod)
    (hgate : pod.Annotations.lookup (annotationPrefix ++ "/injection") = some "enabled")
    (hok : (sidecarInjectMutator fluentdEnv (.pod pod)).err = none) :
    (sidecarInjectMutator fluentdEnv (.pod pod)).volumes = pod.Spec.Volumes ++ [logVolume] := by
  rw [(sidecarInjectMutator_pod_of_success fluentdEnv pod hgate hok).2]
  rfl

theorem last_container_of_success (fluentdEnv : Env) (pod : Pod)
    (hgate : pod.Annotations.lookup (annotationPrefix ++ "/injection") = some "enabled")
    (hok : (sidecarInjectMutator fluentdEnv (.pod pod)).err = none) :
    (sidecarInjectMutator fluentdEnv (.pod pod)).containers.getLast? =
      some (sidecarContainer fluentdEnv pod.Annotations) := by
  rw [containers_of_success fluentdEnv pod hgate hok]
  simp

theorem sidecarEnvList_filter_name (fluentdEnv : Env) (m : List (String × String)) :
    ((sidecarEnvList fluentdEnv m).filter (fun e => e.Name == "SEND_TIMEOUT") =
        [{ Name := "SEND_TIMEOUT",
           Value := annotationOr m (annotationPrefix ++ "/send-timeout") "60s" }]) ∧
    ((sidecarEnvList fluentdEnv m).filter (fun e => e.Name == "RECOVER_WAIT") =
        [{ Name := "RECOVER_WAIT",
           Value := annotationOr m (annotationPrefix ++ "/recover-wait") "10s" }]) ∧
    ((sidecarEnvList fluentdEnv m).filter (fun e => e.Name == "HARD_TIMEOUT") =
        [{ Name := "HARD_TIMEOUT",
           Value := annotationOr m (annotationPrefix ++ "/hard-timeout") "120s" }]) ∧
    ((sidecarEnvList fluentdEnv m).filter (fun e => e.Name == "AGGREGATOR_HOST") =
        [{ Name := "AGGREGATOR_HOST",
           Value := annotationOr m (annotationPrefix ++ "/aggregator-host")
             fluentdEnv.AggregatorHost }]) ∧
    ((sidecarEnvList fluentdEnv m).filter (fun e => e.Name == "APPLICATION_LOG_DIR") =
        [{ Name := "APPLICATION_LOG_DIR",
           Value := annotationOr m (annotationPrefix ++ "/application-log-dir")
             fluentdEnv.ApplicationLogDir }]) ∧
    ((sidecarEnvList fluentdEnv m).filter (fun e => e.Name == "AGGREGATOR_PORT") =
        if annotationOr m (annotationPrefix ++ "/aggregator-port") fluentdEnv.AggregatorPort = ""
        then []
        else [{ Name := "AGGREGATOR_PORT",
                Value := annotationOr m (annotationPrefix ++ "/aggregator-port")
                  fluentdEnv.AggregatorPort }]) ∧
    ((sidecarEnvList fluentdEnv m).filter (fun e => e.Name == "TAG_PREFIX") =
        if annotationOr m (annotationPrefix ++ "/tag-prefix") fluentdEnv.TagPrefix = ""
        then []
        else [{ Name := "TAG_PREFIX",
                Value := annotationOr m (annotationPrefix ++ "/tag-prefix")
                  fluentdEnv.TagPrefix }]) ∧
    ((sidecarEnvList fluentdEnv m).filter (fun e => e.Name == "TIME_KEY") =
        if annotationOr m (annotationPrefix ++ "/time-key") fluentdEnv.TimeKey = ""
        then []
        else [{ Name := "TIME_KEY",
                Value := annotationOr m (annotationPrefix ++ "/time-key")
                  fluentdEnv.TimeKey }]) ∧
    ((sidecarEnvList fluentdEnv m).filter (fun e => e.Name == "TIME_FORMAT") =
        if annotationOr m (annotationPrefix ++ "/time-format") fluentdEnv.TimeFormat = ""
        then []
        else [{ Name := "TIME_FORMAT",
                Value := annotationOr m (annotationPrefix ++ "/time-format")
                  fluentdEnv.TimeFormat }]) := by
  simp only [sidecarEnvList]
  by_cases h1 : annotationOr m (annotationPrefix ++ "/aggregator-port")
      fluentdEnv.AggregatorPort = "" <;>
  by_cases h2 : annotationOr m (annotationPrefix ++ "/tag-prefix") fluentdEnv.TagPrefix = "" <;>
  by_cases h3 : annotationOr m (annotationPrefix ++ "/time-key") fluentdEnv.TimeKey = "" <;>
  by_cases h4 : annotationOr m (annotationPrefix ++ "/time-format")
      fluentdEnv.TimeFormat = "" <;>
  simp [h1, h2, h3, h4, List.filter_cons]

theorem sidecarInjectMutator_pod_of_required (fluentdEnv : Env) (pod : Pod)
    (hgate : pod.Annotations.lookup (annotationPrefix ++ "/injection") = some "enabled")
    (hh : annotationOr pod.Annotations (annotationPrefix ++ "/aggregator-host")
      fluentdEnv.AggregatorHost ≠ "")
    (hd : annotationOr pod.Annotations (annotationPrefix ++ "/application-log-dir")
      fluentdEnv.ApplicationLogDir ≠ "") :
    sidecarInjectMutator fluentdEnv (.pod pod) =
      { obj := .pod (mutatedPod fluentdEnv pod), stop := false, err := none } := by
  rw [sidecarInjectMutator_pod_eq fluentdEnv pod hgate, if_neg hh, if_neg hd]

theorem lookup_of_annotationOr_eq_empty (m : List (String × String)) (key current : String)
    (hc : current ≠ "") (h : annotationOr m key current = "") : m.lookup key = some "" := by
  unfold annotationOr at h
  cases hl : m.lookup key with
  | none => rw [hl] at h; exact absurd h hc
  | some v => rw [hl] at h; simp only at h; rw [h]

theorem empty_value_of_mem_sidecarEnvList (fluentdEnv : Env) (m : List (String × String))
    (hh : annotationOr m (annotationPrefix ++ "/aggregator-host") fluentdEnv.AggregatorHost ≠ "")
    (hd : annotationOr m (annotationPrefix ++ "/application-log-dir")
      fluentdEnv.ApplicationLogDir ≠ "")
    (e : EnvVar) (he : e ∈ sidecarEnvList fluentdEnv m) (hv : e.Value = "") :
    (e.Name = "SEND_TIMEOUT" ∧ m.lookup (annotationPrefix ++ "/send-timeout") = some "") ∨
      (e.Name = "RECOVER_WAIT" ∧ m.lookup (annotationPrefix ++ "/recover-wait") = some "") ∨
      (e.Name = "HARD_TIMEOUT" ∧ m.lookup (annotationPrefix ++ "/hard-timeout") = some "") := by
  simp only [sidecarEnvList, List.mem_append, List.mem_cons, List.mem_singleton,
    List.not_mem_nil, or_false] at he
  rcases he with (((((he | he | he | he) | he) | he) | he) | he) | he
  · subst he
    exact Or.inl ⟨rfl, lookup_of_annotationOr_eq_empty _ _ _ (by decide) hv⟩
  · subst he
    exact Or.inr (Or.inl ⟨rfl, lookup_of_annotationOr_eq_empty _ _ _ (by decide) hv⟩)
  · subst he
    exact Or.inr (Or.inr ⟨rfl, lookup_of_annotationOr_eq_empty _ _ _ (by decide) hv⟩)
  · subst he
    exact absurd hv hh
  · split_ifs at he with hp
    · cases he
    · rw [List.mem_singleton] at he; subst he; exact absurd hv hp
  · subst he
    exact absurd hv hd
  · split_ifs at he with hp
    · cases he
    · rw [List.mem_singleton] at he; subst he; exact absurd hv hp
  · split_ifs at he with hp
    · cases he
    · rw [List.mem_singleton] at he; subst he; exact absurd hv hp
  · split_ifs at he with hp
    · cases he
    · rw [List.mem_singleton] at he; subst he; exact absurd hv hp

theorem annotationOr_congr (m1 m2 : List (String × String))
    (h : ∀ key, m1.lookup key = m2.lookup key) (key current : String) :
    annotationOr m1 key current = annotationOr m2 key current := by
  simp only [annotationOr, h key]

theorem sidecarContainer_congr (fluentdEnv : Env) (m1 m2 : List (String × String))
    (h : ∀ key, m1.lookup key = m2.lookup key) :
    sidecarContainer fluentdEnv m1 = sidecarContainer fluentdEnv m2 := by
  simp only [sidecarContainer, sidecarEnvList, logMount, annotationOr_congr m1 m2 h]

theorem sidecarInjectMutator_pod_of_failure (fluentdEnv : Env) (pod : Pod)
    (hgate : pod.Annotations.lookup (annotationPrefix ++ "/injection") = some "enabled")
    (herr : (sidecarInjectMutator fluentdEnv (.pod pod)).err ≠ none) :
    (sidecarInjectMutator fluentdEnv (.pod pod)).obj =
      .pod { pod with Spec := { pod.Spec with Volumes := pod.Spec.Volumes ++ [logVolume] } } := by
  rw [sidecarInjectMutator_pod_eq fluentdEnv pod hgate] at herr ⊢
  by_cases hh : annotationOr pod.Annotations (annotationPrefix ++ "/aggregator-host")
      fluentdEnv.AggregatorHost = ""
  · rw [if_pos hh]
  · by_cases hd : annotationOr pod.Annotations (annotationPrefix ++ "/application-log-dir")
        fluentdEnv.ApplicationLogDir = ""
    · rw [if_neg hh, if_pos hd]
    · rw [if_neg hh, if_neg hd] at herr
      exact absurd rfl herr

/-! ## The gate and the required fields -/

/-- C1: when the injection annotation of a Pod is absent or has a value other than
"enabled", the mutator returns no error and the Pod after the call is the Pod
before the call, whatever the process defaults are. -/
theorem gate_closed_unchanged (fluentdEnv : Env) (pod : Pod)
    (hgate : pod.Annotations.lookup (annotationPrefix ++ "/injection") ≠ some "enabled") :
    (sidecarInjectMutator fluentdEnv (.pod pod)).err = none ∧
      (sidecarInjectMutator fluentdEnv (.pod pod)).obj = .pod pod := by
  rw [sidecarInjectMutator_pod_of_gate_closed fluentdEnv pod hgate]
  exact ⟨rfl, rfl⟩

/-- C1 at a Pod annotated injection=disabled and at a Pod without annotations. -/
theorem gate_closed_unchanged_witness :
    (disabledPod.Annotations.lookup (annotationPrefix ++ "/injection") ≠ some "enabled" ∧
      (sidecarInjectMutator defaultEnv (.pod disabledPod)).err = none ∧
      (sidecarInjectMutator defaultEnv (.pod disabledPod)).obj = .pod disabledPod) ∧
    ((sidecarInjectMutator defaultEnv (.pod {})).err = none ∧
      (sidecarInjectMutator defaultEnv (.pod {})).obj = .pod {}) :=
  ⟨⟨by decide, gate_closed_unchanged defaultEnv disabledPod (by decide)⟩,
    gate_closed_unchanged defaultEnv {} (by decide)⟩

/-- C2, the code at a failing input: for the gate-enabled Pod bareEnabledPod (one
volume, no aggregator host from either source) the call fails with the
aggregator-host error, its container list is untouched, and its volume list
has already grown by the log volume, so the Pod after the failed call differs
from the Pod before it. -/
theorem failed_call_leaves_volume_appended :
    (sidecarInjectMutator defaultEnv (.pod bareEnabledPod)).err =
        some "aggregator host is required" ∧
      (sidecarInjectMutator defaultEnv (.pod bareEnabledPod)).containers =
        bareEnabledPod.Spec.Containers ∧
      (sidecarInjectMutator defaultEnv (.pod bareEnabledPod)).volumes =
        bareEnabledPod.Spec.Volumes ++
          [{ Name := "fluentd-sidecar-injector-logs", Source := { EmptyDir := some {} } }] ∧
      (sidecarInjectMutator defaultEnv (.pod bareEnabledPod)).volumes ≠
        bareEnabledPod.Spec.Volumes ∧
      (sidecarInjectMutator defaultEnv (.pod bareEnabledPod)).obj ≠ .pod bareEnabledPod := by
  decide

/-- C3: for a gate-enabled Pod whose resolved aggregator host is empty (the
aggregator-host annotation is absent and the default host is empty, or the
annotation is present with the empty string), the mutator fails with
"aggregator host is required"; nothing is assumed about the log directory, so
this is also the error when both required fields are empty. -/
theorem missing_aggregator_host_error (fluentdEnv : Env) (pod : Pod)
    (hgate : pod.Annotations.lookup (annotationPrefix ++ "/injection") = some "enabled")
    (hhost :
      (pod.Annotations.lookup (annotationPrefix ++ "/aggregator-host") = none ∧
          fluentdEnv.AggregatorHost = "") ∨
        pod.Annotations.lookup (annotationPrefix ++ "/aggregator-host") = some "") :
    (sidecarInjectMutator fluentdEnv (.pod pod)).err = some "aggregator host is required" := by
  have hres : annotationOr pod.Annotations (annotationPrefix ++ "/aggregator-host")
      fluentdEnv.AggregatorHost = "" := by
    rcases hhost with ⟨hnone, hdef⟩ | hsome
    · rw [annotationOr_of_lookup_none _ _ _ hnone, hdef]
    · exact annotationOr_of_lookup_some _ _ _ _ hsome
  rw [sidecarInjectMutator_pod_eq fluentdEnv pod hgate, if_pos hres]

/-- C3 at a Pod for which both the aggregator host and the log directory resolve
to the empty string: the aggregator-host error is the one returned. -/
theorem missing_aggregator_host_error_witness :
    bareEnabledPod.Annotations.lookup (annotationPrefix ++ "/injection") = some "enabled" ∧
      bareEnabledPod.Annotations.lookup (annotationPrefix ++ "/aggregator-host") = none ∧
      defaultEnv.AggregatorHost = "" ∧
      annotationOr bareEnabledPod.Annotations (annotationPrefix ++ "/application-log-dir")
        defaultEnv.ApplicationLogDir = "" ∧
      (sidecarInjectMutator defaultEnv (.pod bareEnabledPod)).err =
        some "aggregator host is required" :=
  ⟨by decide, by decide, by decide, by decide,
    missing_aggregator_host_error defaultEnv bareEnabledPod (by decide)
      (Or.inl ⟨by decide, by decide⟩)⟩

/-- C4: the mutator returns an error exactly when the gate annotation is "enabled"
and the resolved aggregator host or the resolved application log dir is empty.
With the gate enabled and a non-empty host, an empty log dir gives the error
"application log dir is required", and a non-empty log dir gives no error. An
object that is not a Pod has no gate annotation and gives no error. -/
theorem error_iff_required_field_empty (fluentdEnv : Env) (pod : Pod) :
    ((sidecarInjectMutator fluentdEnv (.pod pod)).err ≠ none ↔
        pod.Annotations.lookup (annotationPrefix ++ "/injection") = some "enabled" ∧
          (annotationOr pod.Annotations (annotationPrefix ++ "/aggregator-host")
              fluentdEnv.AggregatorHost = "" ∨
            annotationOr pod.Annotations (annotationPrefix ++ "/application-log-dir")
              fluentdEnv.ApplicationLogDir = "")) ∧
      (pod.Annotations.lookup (annotationPrefix ++ "/injection") = some "enabled" →
        annotationOr pod.Annotations (annotationPrefix ++ "/aggregator-host")
          fluentdEnv.AggregatorHost ≠ "" →
        annotationOr pod.Annotations (annotationPrefix ++ "/application-log-dir")
          fluentdEnv.ApplicationLogDir = "" →
        (sidecarInjectMutator fluentdEnv (.pod pod)).err =
          some "application log dir is required") ∧
      (pod.Annotations.lookup (annotationPrefix ++ "/injection") = some "enabled" →
        annotationOr pod.Annotations (annotationPrefix ++ "/aggregator-host")
          fluentdEnv.AggregatorHost ≠ "" →
        annotationOr pod.Annotations (annotationPrefix ++ "/application-log-dir")
          fluentdEnv.ApplicationLogDir ≠ "" →
        (sidecarInjectMutator fluentdEnv (.pod pod)).err = none) ∧
      (∀ kind name, (sidecarInjectMutator fluentdEnv (.other kind name)).err = none) := by
  refine ⟨?_, ?_, ?_, fun _ _ => rfl⟩
  · by_cases hgate : pod.Annotations.lookup (annotationPrefix ++ "/injection") = some "enabled"
    · rw [sidecarInjectMutator_pod_eq fluentdEnv pod hgate]
      split_ifs <;> simp [hgate, *]
    · rw [sidecarInjectMutator_pod_of_gate_closed fluentdEnv pod hgate]
      simp [hgate]
  · intro hgate hh hd
    rw [sidecarInjectMutator_pod_eq fluentdEnv pod hgate, if_neg hh, if_pos hd]
  · intro hgate hh hd
    rw [sidecarInjectMutator_pod_eq fluentdEnv pod hgate, if_neg hh, if_neg hd]

/-- C4 at three Pods: one with a host and no log dir (the log-dir error), one with
both (no error), and one with the gate closed and no host (no error). -/
theorem error_iff_required_field_empty_witness :
    (sidecarInjectMutator defaultEnv (.pod hostOnlyPod)).err =
        some "application log dir is required" ∧
      (sidecarInjectMutator defaultEnv (.pod examplePod)).err = none ∧
      ¬ ((sidecarInjectMutator defaultEnv (.pod {})).err ≠ none) :=
  ⟨(error_iff_required_field_empty defaultEnv hostOnlyPod).2.1
      (by decide) (by decide) (by decide),
    (error_iff_required_field_empty defaultEnv examplePod).2.2.1
      (by decide) (by decide) (by decide),
    fun h => absurd ((error_iff_required_field_empty defaultEnv {}).1.1 h).1 (by decide)⟩

/-! ## The injected sidecar -/

/-- C5 as stated fails: the Pod emptyPortPod carries the aggregator-port annotation
with the value "" while the default port is "24224"; the mutation succeeds, and
no container of the result, the sidecar included, has an environment variable
named AGGREGATOR_PORT, so that variable does not have the annotation's value. -/
theorem empty_port_annotation_omits_variable :
    emptyPortPod.Annotations.lookup (annotationPrefix ++ "/injection") = some "enabled" ∧
      emptyPortPod.Annotations.lookup (annotationPrefix ++ "/aggregator-port") = some "" ∧
      "" ≠ defaultEnv.AggregatorPort ∧
      (sidecarInjectMutator defaultEnv (.pod emptyPortPod)).err = none ∧
      ∀ c ∈ (sidecarInjectMutator defaultEnv (.pod emptyPortPod)).containers,
        ∀ e ∈ c.Env, e.Name ≠ "AGGREGATOR_PORT" := by
  decide

/-- C5, amended: on a successful mutation, a field whose annotation is present with
value V takes that value, whatever the process default is. The sidecar (the last
container of the result) has image V for docker-image; its only mount path and
its one APPLICATION_LOG_DIR variable are V for application-log-dir; its one
SEND_TIMEOUT, RECOVER_WAIT, HARD_TIMEOUT or AGGREGATOR_HOST variable has value V
for send-timeout, recover-wait, hard-timeout and aggregator-host; and for
aggregator-port, tag-prefix, time-key and time-format the variable
AGGREGATOR_PORT, TAG_PREFIX, TIME_KEY or TIME_FORMAT occurs once with value V
when V is non-empty and does not occur when V is the empty string. -/
theorem annotation_overrides_default (fluentdEnv : Env) (pod : Pod) (V : String)
    (hgate : pod.Annotations.lookup (annotationPrefix ++ "/injection") = some "enabled")
    (hok : (sidecarInjectMutator fluentdEnv (.pod pod)).err = none) :
    ∃ sidecar,
      (sidecarInjectMutator fluentdEnv (.pod pod)).containers.getLast? = some sidecar ∧
      (pod.Annotations.lookup (annotationPrefix ++ "/docker-image") = some V →
        sidecar.Image = V) ∧
      (pod.Annotations.lookup (annotationPrefix ++ "/application-log-dir") = some V →
        sidecar.VolumeMounts.map (fun vm => vm.MountPath) = [V] ∧
        sidecar.Env.filter (fun e => e.Name == "APPLICATION_LOG_DIR") =
          [{ Name := "APPLICATION_LOG_DIR", Value := V }]) ∧
      (pod.Annotations.lookup (annotationPrefix ++ "/send-timeout") = some V →
        sidecar.Env.filter (fun e => e.Name == "SEND_TIMEOUT") =
          [{ Name := "SEND_TIMEOUT", Value := V }]) ∧
      (pod.Annotations.lookup (annotationPrefix ++ "/recover-wait") = some V →
        sidecar.Env.filter (fun e => e.Name == "RECOVER_WAIT") =
          [{ Name := "RECOVER_WAIT", Value := V }]) ∧
      (pod.Annotations.lookup (annotationPrefix ++ "/hard-timeout") = some V →
        sidecar.Env.filter (fun e => e.Name == "HARD_TIMEOUT") =
          [{ Name := "HARD_TIMEOUT", Value := V }]) ∧
      (pod.Annotations.lookup (annotationPrefix ++ "/aggregator-host") = some V →
        sidecar.Env.filter (fun e => e.Name == "AGGREGATOR_HOST") =
          [{ Name := "AGGREGATOR_HOST", Value := V }]) ∧
      (pod.Annotations.lookup (annotationPrefix ++ "/aggregator-port") = some V →
        sidecar.Env.filter (fun e => e.Name == "AGGREGATOR_PORT") =
          if V = "" then [] else [{ Name := "AGGREGATOR_PORT", Value := V }]) ∧
      (pod.Annotations.lookup (annotationPrefix ++ "/tag-prefix") = some V →
        sidecar.Env.filter (fun e => e.Name == "TAG_PREFIX") =
          if V = "" then [] else [{ Name := "TAG_PREFIX", Value := V }]) ∧
      (pod.Annotations.lookup (annotationPrefix ++ "/time-key") = some V →
        sidecar.Env.filter (fun e => e.Name == "TIME_KEY") =
          if V = "" then [] else [{ Name := "TIME_KEY", Value := V }]) ∧
      (pod.Annotations.lookup (annotationPrefix ++ "/time-format") = some V →
        sidecar.Env.filter (fun e => e.Name == "TIME_FORMAT") =
          if V = "" then [] else [{ Name := "TIME_FORMAT", Value := V }]) := by
  obtain ⟨f1, f2, f3, f4, f5, f6, f7, f8, f9⟩ :=
    sidecarEnvList_filter_name fluentdEnv pod.Annotations
  refine ⟨sidecarContainer fluentdEnv pod.Annotations,
    last_container_of_success fluentdEnv pod hgate hok, ?_, ?_, ?_, ?_, ?_, ?_, ?_, ?_, ?_, ?_⟩
  · intro hV
    exact annotationOr_of_lookup_some _ _ _ _ hV
  · intro hV
    refine ⟨?_, ?_⟩
    · simp only [sidecarContainer, logMount, List.map_cons, List.map_nil,
        annotationOr_of_lookup_some _ _ _ _ hV]
    · simp only [sidecarContainer, f5, annotationOr_of_lookup_some _ _ _ _ hV]
  · intro hV
    simp only [sidecarContainer, f1, annotationOr_of_lookup_some _ _ _ _ hV]
  · intro hV
    simp only [sidecarContainer, f2, annotationOr_of_lookup_some _ _ _ _ hV]
  · intro hV
    simp only [sidecarContainer, f3, annotationOr_of_lookup_some _ _ _ _ hV]
  · intro hV
    simp only [sidecarContainer, f4, annotationOr_of_lookup_some _ _ _ _ hV]
  · intro hV
    simp only [sidecarContainer, f6, annotationOr_of_lookup_some _ _ _ _ hV]
  · intro hV
    simp only [sidecarContainer, f7, annotationOr_of_lookup_some _ _ _ _ hV]
  · intro hV
    simp only [sidecarContainer, f8, annotationOr_of_lookup_some _ _ _ _ hV]
  · intro hV
    simp only [sidecarContainer, f9, annotationOr_of_lookup_some _ _ _ _ hV]

/-- C5, amended, at overridingPod with the port value "24225" (the default port is
"24224"): the mutation succeeds and the sidecar has exactly one AGGREGATOR_PORT
variable, with value "24225". -/
theorem annotation_overrides_default_witness :
    overridingPod.Annotations.lookup (annotationPrefix ++ "/injection") = some "enabled" ∧
      (sidecarInjectMutator defaultEnv (.pod overridingPod)).err = none ∧
      overridingPod.Annotations.lookup (annotationPrefix ++ "/aggregator-port") = some "24225" ∧
      ∃ sidecar,
        (sidecarInjectMutator defaultEnv (.pod overridingPod)).containers.getLast? =
          some sidecar ∧
        sidecar.Env.filter (fun e => e.Name == "AGGREGATOR_PORT") =
          [{ Name := "AGGREGATOR_PORT", Value := "24225" }] :=
  ⟨by decide, by decide, by decide,
    (annotation_overrides_default defaultEnv overridingPod "24225" (by decide) (by decide)).imp
      fun _ h => ⟨h.1, by simpa using h.2.2.2.2.2.2.2.1 (by decide)⟩⟩

/-- C6: on a successful mutation the names of the sidecar's environment variables,
in order, are the fixed sequence SEND_TIMEOUT, RECOVER_WAIT, HARD_TIMEOUT,
AGGREGATOR_HOST, AGGREGATOR_PORT, APPLICATION_LOG_DIR, TAG_PREFIX, TIME_KEY,
TIME_FORMAT from which AGGREGATOR_PORT, TAG_PREFIX, TIME_KEY and TIME_FORMAT are
each removed exactly when its resolved value is empty; the sidecar is the last
container of the result. -/
theorem sidecar_env_names (fluentdEnv : Env) (pod : Pod)
    (hgate : pod.Annotations.lookup (annotationPrefix ++ "/injection") = some "enabled")
    (hok : (sidecarInjectMutator fluentdEnv (.pod pod)).err = none) :
    ∃ sidecar,
      (sidecarInjectMutator fluentdEnv (.pod pod)).containers.getLast? = some sidecar ∧
      sidecar.Env.map (fun e => e.Name) =
        ["SEND_TIMEOUT", "RECOVER_WAIT", "HARD_TIMEOUT", "AGGREGATOR_HOST", "AGGREGATOR_PORT",
          "APPLICATION_LOG_DIR", "TAG_PREFIX", "TIME_KEY", "TIME_FORMAT"].filter
          (fun name =>
            !(name == "AGGREGATOR_PORT" &&
                annotationOr pod.Annotations (annotationPrefix ++ "/aggregator-port")
                  fluentdEnv.AggregatorPort == "") &&
            !(name == "TAG_PREFIX" &&
                annotationOr pod.Annotations (annotationPrefix ++ "/tag-prefix")
                  fluentdEnv.TagPrefix == "") &&
            !(name == "TIME_KEY" &&
                annotationOr pod.Annotations (annotationPrefix ++ "/time-key")
                  fluentdEnv.TimeKey == "") &&
            !(name == "TIME_FORMAT" &&
                annotationOr pod.Annotations (annotationPrefix ++ "/time-format")
                  fluentdEnv.TimeFormat == "")) := by
  refine ⟨sidecarContainer fluentdEnv pod.Annotations,
    last_container_of_success fluentdEnv pod hgate hok, ?_⟩
  simp only [sidecarContainer, sidecarEnvList]
  by_cases h1 : annotationOr pod.Annotations (annotationPrefix ++ "/aggregator-port")
      fluentdEnv.AggregatorPort = "" <;>
  by_cases h2 : annotationOr pod.Annotations (annotationPrefix ++ "/tag-prefix")
      fluentdEnv.TagPrefix = "" <;>
  by_cases h3 : annotationOr pod.Annotations (annotationPrefix ++ "/time-key")
      fluentdEnv.TimeKey = "" <;>
  by_cases h4 : annotationOr pod.Annotations (annotationPrefix ++ "/time-format")
      fluentdEnv.TimeFormat = "" <;>
  simp [h1, h2, h3, h4, List.filter_cons]

/-- C6 at emptyPortPod: the port resolves to the empty string and the other three
optional values to their non-empty defaults, so the names are the fixed sequence
without AGGREGATOR_PORT. -/
theorem sidecar_env_names_witness :
    emptyPortPod.Annotations.lookup (annotationPrefix ++ "/injection") = some "enabled" ∧
      (sidecarInjectMutator defaultEnv (.pod emptyPortPod)).err = none ∧
      ∃ sidecar,
        (sidecarInjectMutator defaultEnv (.pod emptyPortPod)).containers.getLast? =
          some sidecar ∧
        sidecar.Env.map (fun e => e.Name) =
          ["SEND_TIMEOUT", "RECOVER_WAIT", "HARD_TIMEOUT", "AGGREGATOR_HOST",
            "APPLICATION_LOG_DIR", "TAG_PREFIX", "TIME_KEY", "TIME_FORMAT"] :=
  ⟨by decide, by decide,
    (sidecar_env_names defaultEnv emptyPortPod (by decide) (by decide)).imp
      fun _ h => ⟨h.1, h.2.trans (by decide)⟩⟩

/-! ## The container and volume lists -/

/-- C7: on a successful mutation of a Pod with containers c1 .. cn, the resulting
container list is the original containers in their order, each unchanged except
that one mount (volume fluentd-sidecar-injector-logs, read-write, at the path dir)
is appended after its prior mounts, followed by the sidecar as last element; the
list has n+1 elements and dir is the mount path of the sidecar's single mount. -/
theorem containers_after_success (fluentdEnv : Env) (pod : Pod)
    (hgate : pod.Annotations.lookup (annotationPrefix ++ "/injection") = some "enabled")
    (hok : (sidecarInjectMutator fluentdEnv (.pod pod)).err = none) :
    ∃ sidecar dir,
      (sidecarInjectMutator fluentdEnv (.pod pod)).containers =
        pod.Spec.Containers.map
            (fun c =>
              { c with
                VolumeMounts := c.VolumeMounts ++
                  [{ Name := "fluentd-sidecar-injector-logs", ReadOnly := false,
                     MountPath := dir, SubPath := "" }] })
          ++ [sidecar] ∧
      (sidecarInjectMutator fluentdEnv (.pod pod)).containers.length =
        pod.Spec.Containers.length + 1 ∧
      (sidecarInjectMutator fluentdEnv (.pod pod)).containers.getLast? = some sidecar ∧
      sidecar.Name = "fluentd-sidecar" ∧
      sidecar.VolumeMounts =
        [{ Name := "fluentd-sidecar-injector-logs", ReadOnly := false,
           MountPath := dir, SubPath := "" }] := by
  refine ⟨sidecarContainer fluentdEnv pod.Annotations,
    annotationOr pod.Annotations (annotationPrefix ++ "/application-log-dir")
      fluentdEnv.ApplicationLogDir,
    containers_of_success fluentdEnv pod hgate hok, ?_,
    last_container_of_success fluentdEnv pod hgate hok, rfl, rfl⟩
  rw [containers_of_success fluentdEnv pod hgate hok]
  simp

/-- C7 at examplePod (containers A with one prior mount, and B with none). -/
theorem containers_after_success_witness :
    examplePod.Annotations.lookup (annotationPrefix ++ "/injection") = some "enabled" ∧
      (sidecarInjectMutator defaultEnv (.pod examplePod)).err = none ∧
      ∃ sidecar,
        (sidecarInjectMutator defaultEnv (.pod examplePod)).containers =
          [ { Name := "A", Image := "nginx",
              VolumeMounts :=
                [ { Name := "data", MountPath := "/data" },
                  { Name := "fluentd-sidecar-injector-logs", MountPath := "/var/log/app" } ] },
            { Name := "B", Image := "redis",
              VolumeMounts :=
                [ { Name := "fluentd-sidecar-injector-logs", MountPath := "/var/log/app" } ] },
            sidecar ] ∧
        sidecar.Name = "fluentd-sidecar" :=
  ⟨by decide, by decide,
    match containers_after_success defaultEnv examplePod (by decide) (by decide) with
    | ⟨sidecar, _, _, _, hlast, hname, _⟩ =>
      ⟨sidecar, by
        have hl : (sidecarInjectMutator defaultEnv (.pod examplePod)).containers.getLast? =
            some (sidecarContainer defaultEnv examplePod.Annotations) := by decide
        have hs : sidecar = sidecarContainer defaultEnv examplePod.Annotations :=
          Option.some.inj (hlast.symm.trans hl)
        rw [hs]; decide, hname⟩⟩

/-- C8: on a successful mutation the resulting volume list is the original volume
list followed by one new volume named fluentd-sidecar-injector-logs whose source
is an empty directory (and no other kind). -/
theorem volumes_after_success (fluentdEnv : Env) (pod : Pod)
    (hgate : pod.Annotations.lookup (annotationPrefix ++ "/injection") = some "enabled")
    (hok : (sidecarInjectMutator fluentdEnv (.pod pod)).err = none) :
    (sidecarInjectMutator fluentdEnv (.pod pod)).volumes =
      pod.Spec.Volumes ++
        [{ Name := "fluentd-sidecar-injector-logs",
           Source :=
             { HostPath := none
               EmptyDir := some { Medium := "", SizeLimit := none }
               Secret := none } }] :=
  volumes_of_success fluentdEnv pod hgate hok

/-- C8 at examplePod, whose one volume "data" stays first. -/
theorem volumes_after_success_witness :
    examplePod.Annotations.lookup (annotationPrefix ++ "/injection") = some "enabled" ∧
      (sidecarInjectMutator defaultEnv (.pod examplePod)).err = none ∧
      (sidecarInjectMutator defaultEnv (.pod examplePod)).volumes =
        [ { Name := "data", Source := { HostPath := some "/data" } },
          { Name := "fluentd-sidecar-injector-logs", Source := { EmptyDir := some {} } } ] :=
  ⟨by decide, by decide, volumes_after_success defaultEnv examplePod (by decide) (by decide)⟩

/-- C9: the worked example. With the tag defaults of Env and a Pod with containers
A and B annotated injection=enabled, aggregator-host=agg.example.com and
application-log-dir=/var/log/app only, the mutation succeeds; the containers
become A and B, each with one mount of the new volume at /var/log/app appended,
followed by the sidecar; the sidecar's image is the default image and its
environment is the nine documented pairs in the documented order; the volume
list gains exactly the one empty-directory volume. -/
theorem worked_example (base : Pod) (A B : Container) :
    (sidecarInjectMutator defaultEnv (.pod (workedExamplePod base A B))).err = none ∧
      (∃ sidecar,
        (sidecarInjectMutator defaultEnv (.pod (workedExamplePod base A B))).containers =
          [ { A with
              VolumeMounts := A.VolumeMounts ++
                [{ Name := "fluentd-sidecar-injector-logs", ReadOnly := false,
                   MountPath := "/var/log/app", SubPath := "" }] },
            { B with
              VolumeMounts := B.VolumeMounts ++
                [{ Name := "fluentd-sidecar-injector-logs", ReadOnly := false,
                   MountPath := "/var/log/app", SubPath := "" }] },
            sidecar ] ∧
        sidecar.Name = "fluentd-sidecar" ∧
        sidecar.Image = "h3poteto/fluentd-forward:latest" ∧
        sidecar.Env =
          [ { Name := "SEND_TIMEOUT", Value := "60s" },
            { Name := "RECOVER_WAIT", Value := "10s" },
            { Name := "HARD_TIMEOUT", Value := "120s" },
            { Name := "AGGREGATOR_HOST", Value := "agg.example.com" },
            { Name := "AGGREGATOR_PORT", Value := "24224" },
            { Name := "APPLICATION_LOG_DIR", Value := "/var/log/app" },
            { Name := "TAG_PREFIX", Value := "app" },
            { Name := "TIME_KEY", Value := "time" },
            { Name := "TIME_FORMAT", Value := "%Y-%m-%dT%H:%M:%S%z" } ] ∧
        sidecar.VolumeMounts =
          [{ Name := "fluentd-sidecar-injector-logs", ReadOnly := false,
             MountPath := "/var/log/app", SubPath := "" }]) ∧
      (sidecarInjectMutator defaultEnv (.pod (workedExamplePod base A B))).volumes =
        base.Spec.Volumes ++
          [{ Name := "fluentd-sidecar-injector-logs",
             Source :=
               { HostPath := none
                 EmptyDir := some { Medium := "", SizeLimit := none }
                 Secret := none } }] := by
  have hann : (workedExamplePod base A B).Annotations = examplePod.Annotations := rfl
  have heq := sidecarInjectMutator_pod_of_required defaultEnv (workedExamplePod base A B)
    (by rw [hann]; decide) (by rw [hann]; decide) (by rw [hann]; decide)
  rw [heq]
  exact ⟨rfl, ⟨sidecarContainer defaultEnv (workedExamplePod base A B).Annotations,
    rfl, rfl, rfl, rfl, rfl⟩, rfl⟩

/-- C10: the mutation is not idempotent. When the mutator succeeds on a gate-enabled
Pod with n containers and m volumes, calling it again on the object it left
behind, with the same defaults, succeeds as well and leaves the original m
volumes followed by two volumes named fluentd-sidecar-injector-logs, and n
containers followed by two containers named fluentd-sidecar. -/
theorem second_call_appends_again (fluentdEnv : Env) (pod : Pod)
    (hgate : pod.Annotations.lookup (annotationPrefix ++ "/injection") = some "enabled")
    (hok : (sidecarInjectMutator fluentdEnv (.pod pod)).err = none) :
    (sidecarInjectMutator fluentdEnv (sidecarInjectMutator fluentdEnv (.pod pod)).obj).err =
        none ∧
      (∃ v1 v2,
        (sidecarInjectMutator fluentdEnv
            (sidecarInjectMutator fluentdEnv (.pod pod)).obj).volumes =
          pod.Spec.Volumes ++ [v1, v2] ∧
        v1.Name = "fluentd-sidecar-injector-logs" ∧
        v2.Name = "fluentd-sidecar-injector-logs") ∧
      (sidecarInjectMutator fluentdEnv
          (sidecarInjectMutator fluentdEnv (.pod pod)).obj).volumes.length =
        pod.Spec.Volumes.length + 2 ∧
      (∃ cs s1 s2,
        (sidecarInjectMutator fluentdEnv
            (sidecarInjectMutator fluentdEnv (.pod pod)).obj).containers =
          cs ++ [s1, s2] ∧
        cs.length = pod.Spec.Containers.length ∧
        s1.Name = "fluentd-sidecar" ∧
        s2.Name = "fluentd-sidecar") ∧
      (sidecarInjectMutator fluentdEnv
          (sidecarInjectMutator fluentdEnv (.pod pod)).obj).containers.length =
        pod.Spec.Containers.length + 2 := by
  obtain ⟨⟨hh, hd⟩, h1⟩ := sidecarInjectMutator_pod_of_success fluentdEnv pod hgate hok
  have h2 := sidecarInjectMutator_pod_of_required fluentdEnv (mutatedPod fluentdEnv pod)
    hgate hh hd
  have h12 :
      sidecarInjectMutator fluentdEnv (sidecarInjectMutator fluentdEnv (.pod pod)).obj =
        { obj := .pod (mutatedPod fluentdEnv (mutatedPod fluentdEnv pod))
          stop := false, err := none } := by
    rw [h1]; exact h2
  rw [h12]
  refine ⟨rfl, ⟨logVolume, logVolume, ?_, rfl, rfl⟩, ?_,
    ⟨(pod.Spec.Containers.map
        (fun c =>
          { c with VolumeMounts := c.VolumeMounts ++ [logMount fluentdEnv pod.Annotations] })).map
        (fun c =>
          { c with VolumeMounts := c.VolumeMounts ++ [logMount fluentdEnv pod.Annotations] }),
      { sidecarContainer fluentdEnv pod.Annotations with
        VolumeMounts := (sidecarContainer fluentdEnv pod.Annotations).VolumeMounts ++
          [logMount fluentdEnv pod.Annotations] },
      sidecarContainer fluentdEnv pod.Annotations, ?_, ?_, rfl, rfl⟩, ?_⟩
  · simp [MutatorResult.volumes, mutatedPod]
  · simp [MutatorResult.volumes, mutatedPod]
  · simp [MutatorResult.containers, mutatedPod]
  · simp
  · simp [MutatorResult.containers, mutatedPod]

/-- C10 at examplePod (two containers, one volume): the second call leaves four
containers and three volumes. -/
theorem second_call_appends_again_witness :
    examplePod.Annotations.lookup (annotationPrefix ++ "/injection") = some "enabled" ∧
      (sidecarInjectMutator defaultEnv (.pod examplePod)).err = none ∧
      (sidecarInjectMutator defaultEnv
          (sidecarInjectMutator defaultEnv (.pod examplePod)).obj).containers.length = 4 ∧
      (sidecarInjectMutator defaultEnv
          (sidecarInjectMutator defaultEnv (.pod examplePod)).obj).volumes.length = 3 :=
  ⟨by decide, by decide,
    (second_call_appends_again defaultEnv examplePod (by decide) (by decide)).2.2.2.2,
    (second_call_appends_again defaultEnv examplePod (by decide) (by decide)).2.2.1⟩

/-! ## The stop result, optional variables and fixed fields -/

/-- C11: for every input object (an object that is not a Pod, a Pod whose gate is
closed, a Pod on which the call fails, a Pod that is mutated) and every record
of process defaults, the stop result of the mutator is false. -/
theorem stop_always_false (fluentdEnv : Env) (obj : Object) :
    (sidecarInjectMutator fluentdEnv obj).stop = false := by
  cases obj with
  | other kind name => rfl
  | pod pod =>
    by_cases hgate : pod.Annotations.lookup (annotationPrefix ++ "/injection") = some "enabled"
    · rw [sidecarInjectMutator_pod_eq fluentdEnv pod hgate]
      split_ifs <;> rfl
    · rw [sidecarInjectMutator_pod_of_gate_closed fluentdEnv pod hgate]

/-- C12: on a successful mutation, when the resolved aggregator port is the empty
string no environment variable of the sidecar is named AGGREGATOR_PORT (in
particular when the aggregator-port annotation is present with the empty string,
whatever the default port is), and when it is non-empty exactly one variable is
named AGGREGATOR_PORT and its value is the resolved port. -/
theorem aggregator_port_variable (fluentdEnv : Env) (pod : Pod)
    (hgate : pod.Annotations.lookup (annotationPrefix ++ "/injection") = some "enabled")
    (hok : (sidecarInjectMutator fluentdEnv (.pod pod)).err = none) :
    ∃ sidecar,
      (sidecarInjectMutator fluentdEnv (.pod pod)).containers.getLast? = some sidecar ∧
      (annotationOr pod.Annotations (annotationPrefix ++ "/aggregator-port")
          fluentdEnv.AggregatorPort = "" →
        ∀ e ∈ sidecar.Env, e.Name ≠ "AGGREGATOR_PORT") ∧
      (pod.Annotations.lookup (annotationPrefix ++ "/aggregator-port") = some "" →
        ∀ e ∈ sidecar.Env, e.Name ≠ "AGGREGATOR_PORT") ∧
      (annotationOr pod.Annotations (annotationPrefix ++ "/aggregator-port")
          fluentdEnv.AggregatorPort ≠ "" →
        sidecar.Env.filter (fun e => e.Name == "AGGREGATOR_PORT") =
          [{ Name := "AGGREGATOR_PORT",
             Value := annotationOr pod.Annotations (annotationPrefix ++ "/aggregator-port")
               fluentdEnv.AggregatorPort }]) := by
  have f6 := (sidecarEnvList_filter_name fluentdEnv pod.Annotations).2.2.2.2.2.1
  have hnone : annotationOr pod.Annotations (annotationPrefix ++ "/aggregator-port")
        fluentdEnv.AggregatorPort = "" →
      ∀ e ∈ (sidecarContainer fluentdEnv pod.Annotations).Env, e.Name ≠ "AGGREGATOR_PORT" := by
    intro hp e he hname
    rw [if_pos hp] at f6
    have hmem : e ∈ (sidecarEnvList fluentdEnv pod.Annotations).filter
        (fun e => e.Name == "AGGREGATOR_PORT") :=
      List.mem_filter.2 ⟨he, by simp [hname]⟩
    rw [f6] at hmem
    cases hmem
  refine ⟨sidecarContainer fluentdEnv pod.Annotations,
    last_container_of_success fluentdEnv pod hgate hok, hnone, ?_, ?_⟩
  · intro hV
    exact hnone (annotationOr_of_lookup_some _ _ _ _ hV)
  · intro hp
    rw [if_neg hp] at f6
    exact f6

/-- C12 at emptyPortPod: the aggregator-port annotation is present with the empty
string while the default port is "24224"; the mutation succeeds and the sidecar
has no variable named AGGREGATOR_PORT. -/
theorem aggregator_port_variable_witness :
    emptyPortPod.Annotations.lookup (annotationPrefix ++ "/injection") = some "enabled" ∧
      (sidecarInjectMutator defaultEnv (.pod emptyPortPod)).err = none ∧
      emptyPortPod.Annotations.lookup (annotationPrefix ++ "/aggregator-port") = some "" ∧
      defaultEnv.AggregatorPort = "24224" ∧
      ∃ sidecar,
        (sidecarInjectMutator defaultEnv (.pod emptyPortPod)).containers.getLast? =
          some sidecar ∧
        ∀ e ∈ sidecar.Env, e.Name ≠ "AGGREGATOR_PORT" :=
  ⟨by decide, by decide, by decide, by decide,
    (aggregator_port_variable defaultEnv emptyPortPod (by decide) (by decide)).imp
      fun _ h => ⟨h.1, h.2.2.1 (by decide)⟩⟩

/-- C13: on a successful mutation the sidecar (the last container of the result)
is named fluentd-sidecar, its image is the resolved docker image, its resource
requests are 200*1024*1024 bytes of memory and 100 thousandths of a CPU, its
resource limits are the single entry of 1000*1024*1024 bytes of memory, and its
volume mounts are the single read-write mount of the volume
fluentd-sidecar-injector-logs at the resolved application log dir. -/
theorem sidecar_fixed_fields (fluentdEnv : Env) (pod : Pod)
    (hgate : pod.Annotations.lookup (annotationPrefix ++ "/injection") = some "enabled")
    (hok : (sidecarInjectMutator fluentdEnv (.pod pod)).err = none) :
    ∃ sidecar,
      (sidecarInjectMutator fluentdEnv (.pod pod)).containers.getLast? = some sidecar ∧
      sidecar.Name = "fluentd-sidecar" ∧
      sidecar.Image =
        annotationOr pod.Annotations (annotationPrefix ++ "/docker-image")
          fluentdEnv.DockerImage ∧
      sidecar.Resources.Requests =
        [ ("memory", { value := 200 * 1024 * 1024, scale := 0, format := Format.BinarySI }),
          ("cpu", { value := 100, scale := -3, format := Format.DecimalSI }) ] ∧
      sidecar.Resources.Limits =
        [ ("memory", { value := 1000 * 1024 * 1024, scale := 0, format := Format.BinarySI }) ] ∧
      sidecar.Resources.Limits.length = 1 ∧
      sidecar.VolumeMounts =
        [{ Name := "fluentd-sidecar-injector-logs", ReadOnly := false,
           MountPath :=
             annotationOr pod.Annotations (annotationPrefix ++ "/application-log-dir")
               fluentdEnv.ApplicationLogDir,
           SubPath := "" }] :=
  ⟨sidecarContainer fluentdEnv pod.Annotations,
    last_container_of_success fluentdEnv pod hgate hok, rfl, rfl, rfl, rfl, rfl, rfl⟩

/-- C13 at overridingPod: the image and the mount path are the annotated ones. -/
theorem sidecar_fixed_fields_witness :
    overridingPod.Annotations.lookup (annotationPrefix ++ "/injection") = some "enabled" ∧
      (sidecarInjectMutator defaultEnv (.pod overridingPod)).err = none ∧
      ∃ sidecar,
        (sidecarInjectMutator defaultEnv (.pod overridingPod)).containers.getLast? =
          some sidecar ∧
        sidecar.Name = "fluentd-sidecar" ∧
        sidecar.Image = "example/fluentd:1" ∧
        sidecar.Resources.Limits.length = 1 ∧
        sidecar.VolumeMounts =
          [{ Name := "fluentd-sidecar-injector-logs", MountPath := "/var/log/app" }] :=
  ⟨by decide, by decide,
    (sidecar_fixed_fields defaultEnv overridingPod (by decide) (by decide)).imp
      fun _ h =>
        ⟨h.1, h.2.1, h.2.2.1.trans (by decide), h.2.2.2.2.2.1, h.2.2.2.2.2.2.trans (by decide)⟩⟩

/-! ## Values of the environment variables -/

/-- C14 as stated fails: the Pod emptyTimeoutPod carries the send-timeout annotation
with the empty string; the mutation succeeds and the sidecar's environment
starts with the variable SEND_TIMEOUT whose value is the empty string. -/
theorem empty_timeout_annotation_keeps_variable :
    emptyTimeoutPod.Annotations.lookup (annotationPrefix ++ "/injection") = some "enabled" ∧
      (sidecarInjectMutator defaultEnv (.pod emptyTimeoutPod)).err = none ∧
      (sidecarInjectMutator defaultEnv (.pod emptyTimeoutPod)).containers.getLast?.map
          (fun c => c.Env) =
        some
          [ { Name := "SEND_TIMEOUT", Value := "" },
            { Name := "RECOVER_WAIT", Value := "10s" },
            { Name := "HARD_TIMEOUT", Value := "120s" },
            { Name := "AGGREGATOR_HOST", Value := "agg.example.com" },
            { Name := "AGGREGATOR_PORT", Value := "24224" },
            { Name := "APPLICATION_LOG_DIR", Value := "/var/log/app" },
            { Name := "TAG_PREFIX", Value := "app" },
            { Name := "TIME_KEY", Value := "time" },
            { Name := "TIME_FORMAT", Value := "%Y-%m-%dT%H:%M:%S%z" } ] := by
  decide

/-- C14, amended: on a successful mutation, SEND_TIMEOUT, RECOVER_WAIT and
HARD_TIMEOUT are always in the sidecar's environment, with the value of the
annotation when it is present and 60s, 10s, 120s otherwise; and a variable of
the sidecar has an empty value only if it is one of these three and its
annotation (send-timeout, recover-wait, hard-timeout) is present with the empty
string. Every other variable of the sidecar has a non-empty value. -/
theorem env_values_nonempty_except_timeouts (fluentdEnv : Env) (pod : Pod)
    (hgate : pod.Annotations.lookup (annotationPrefix ++ "/injection") = some "enabled")
    (hok : (sidecarInjectMutator fluentdEnv (.pod pod)).err = none) :
    ∃ sidecar,
      (sidecarInjectMutator fluentdEnv (.pod pod)).containers.getLast? = some sidecar ∧
      ({ Name := "SEND_TIMEOUT",
         Value := annotationOr pod.Annotations (annotationPrefix ++ "/send-timeout") "60s" }
        ∈ sidecar.Env) ∧
      ({ Name := "RECOVER_WAIT",
         Value := annotationOr pod.Annotations (annotationPrefix ++ "/recover-wait") "10s" }
        ∈ sidecar.Env) ∧
      ({ Name := "HARD_TIMEOUT",
         Value := annotationOr pod.Annotations (annotationPrefix ++ "/hard-timeout") "120s" }
        ∈ sidecar.Env) ∧
      ∀ e ∈ sidecar.Env, e.Value = "" →
        (e.Name = "SEND_TIMEOUT" ∧
            pod.Annotations.lookup (annotationPrefix ++ "/send-timeout") = some "") ∨
          (e.Name = "RECOVER_WAIT" ∧
            pod.Annotations.lookup (annotationPrefix ++ "/recover-wait") = some "") ∨
          (e.Name = "HARD_TIMEOUT" ∧
            pod.Annotations.lookup (annotationPrefix ++ "/hard-timeout") = some "") := by
  obtain ⟨⟨hh, hd⟩, -⟩ := sidecarInjectMutator_pod_of_success fluentdEnv pod hgate hok
  refine ⟨sidecarContainer fluentdEnv pod.Annotations,
    last_container_of_success fluentdEnv pod hgate hok, ?_, ?_, ?_,
    empty_value_of_mem_sidecarEnvList fluentdEnv pod.Annotations hh hd⟩ <;>
  simp [sidecarContainer, sidecarEnvList]

/-- C14, amended, at examplePod, which has none of the three timeout annotations:
every variable of its sidecar has a non-empty value. -/
theorem env_values_nonempty_except_timeouts_witness :
    examplePod.Annotations.lookup (annotationPrefix ++ "/injection") = some "enabled" ∧
      (sidecarInjectMutator defaultEnv (.pod examplePod)).err = none ∧
      ∃ sidecar,
        (sidecarInjectMutator defaultEnv (.pod examplePod)).containers.getLast? =
          some sidecar ∧
        ∀ e ∈ sidecar.Env, e.Value ≠ "" :=
  ⟨by decide, by decide,
    (env_values_nonempty_except_timeouts defaultEnv examplePod (by decide) (by decide)).imp
      fun _ h =>
        ⟨h.1, fun e he hv =>
          (h.2.2.2.2 e he hv).elim (fun h1 => absurd h1.2 (by decide))
            (fun h23 => h23.elim (fun h2 => absurd h2.2 (by decide))
              (fun h3 => absurd h3.2 (by decide)))⟩⟩

/-- C15: for a gate-enabled Pod that carries none of the ten override annotations
and process defaults whose aggregator host and log directory are non-empty, the
mutation succeeds; the sidecar's image is the default image; its environment is
SEND_TIMEOUT=60s, RECOVER_WAIT=10s, HARD_TIMEOUT=120s (whatever the defaults
are), AGGREGATOR_HOST and APPLICATION_LOG_DIR with their defaults, and
AGGREGATOR_PORT, TAG_PREFIX, TIME_KEY, TIME_FORMAT with their defaults, each
present exactly when its default is non-empty, in this order. -/
theorem defaults_without_override (fluentdEnv : Env) (pod : Pod)
    (hgate : pod.Annotations.lookup (annotationPrefix ++ "/injection") = some "enabled")
    (himage : pod.Annotations.lookup (annotationPrefix ++ "/docker-image") = none)
    (hsend : pod.Annotations.lookup (annotationPrefix ++ "/send-timeout") = none)
    (hrecover : pod.Annotations.lookup (annotationPrefix ++ "/recover-wait") = none)
    (hhard : pod.Annotations.lookup (annotationPrefix ++ "/hard-timeout") = none)
    (hhost : pod.Annotations.lookup (annotationPrefix ++ "/aggregator-host") = none)
    (hport : pod.Annotations.lookup (annotationPrefix ++ "/aggregator-port") = none)
    (hdir : pod.Annotations.lookup (annotationPrefix ++ "/application-log-dir") = none)
    (htag : pod.Annotations.lookup (annotationPrefix ++ "/tag-prefix") = none)
    (hkey : pod.Annotations.lookup (annotationPrefix ++ "/time-key") = none)
    (hformat : pod.Annotations.lookup (annotationPrefix ++ "/time-format") = none)
    (hdefhost : fluentdEnv.AggregatorHost ≠ "")
    (hdefdir : fluentdEnv.ApplicationLogDir ≠ "") :
    (sidecarInjectMutator fluentdEnv (.pod pod)).err = none ∧
      ∃ sidecar,
        (sidecarInjectMutator fluentdEnv (.pod pod)).containers.getLast? = some sidecar ∧
        sidecar.Image = fluentdEnv.DockerImage ∧
        sidecar.Env =
          [ { Name := "SEND_TIMEOUT", Value := "60s" },
            { Name := "RECOVER_WAIT", Value := "10s" },
            { Name := "HARD_TIMEOUT", Value := "120s" },
            { Name := "AGGREGATOR_HOST", Value := fluentdEnv.AggregatorHost } ]
          ++ (if fluentdEnv.AggregatorPort = "" then []
              else [{ Name := "AGGREGATOR_PORT", Value := fluentdEnv.AggregatorPort }])
          ++ [ { Name := "APPLICATION_LOG_DIR", Value := fluentdEnv.ApplicationLogDir } ]
          ++ (if fluentdEnv.TagPrefix = "" then []
              else [{ Name := "TAG_PREFIX", Value := fluentdEnv.TagPrefix }])
          ++ (if fluentdEnv.TimeKey = "" then []
              else [{ Name := "TIME_KEY", Value := fluentdEnv.TimeKey }])
          ++ (if fluentdEnv.TimeFormat = "" then []
              else [{ Name := "TIME_FORMAT", Value := fluentdEnv.TimeFormat }]) := by
  have hh : annotationOr pod.Annotations (annotationPrefix ++ "/aggregator-host")
      fluentdEnv.AggregatorHost ≠ "" := by
    rw [annotationOr_of_lookup_none _ _ _ hhost]; exact hdefhost
  have hd : annotationOr pod.Annotations (annotationPrefix ++ "/application-log-dir")
      fluentdEnv.ApplicationLogDir ≠ "" := by
    rw [annotationOr_of_lookup_none _ _ _ hdir]; exact hdefdir
  have heq := sidecarInjectMutator_pod_of_required fluentdEnv pod hgate hh hd
  have hok : (sidecarInjectMutator fluentdEnv (.pod pod)).err = none := by rw [heq]
  refine ⟨hok, sidecarContainer fluentdEnv pod.Annotations,
    last_container_of_success fluentdEnv pod hgate hok, ?_, ?_⟩
  · exact annotationOr_of_lookup_none _ _ _ himage
  · simp only [sidecarContainer, sidecarEnvList, annotationOr_of_lookup_none _ _ _ hsend,
      annotationOr_of_lookup_none _ _ _ hrecover, annotationOr_of_lookup_none _ _ _ hhard,
      annotationOr_of_lookup_none _ _ _ hhost, annotationOr_of_lookup_none _ _ _ hport,
      annotationOr_of_lookup_none _ _ _ hdir, annotationOr_of_lookup_none _ _ _ htag,
      annotationOr_of_lookup_none _ _ _ hkey, annotationOr_of_lookup_none _ _ _ hformat]

/-- C15 at bareEnabledPod (the gate annotation only) with configuredEnv: the
sidecar has the default image and the nine variables with the literal timeouts
and the defaults. -/
theorem defaults_without_override_witness :
    bareEnabledPod.Annotations.lookup (annotationPrefix ++ "/injection") = some "enabled" ∧
      configuredEnv.AggregatorHost ≠ "" ∧
      configuredEnv.ApplicationLogDir ≠ "" ∧
      (sidecarInjectMutator configuredEnv (.pod bareEnabledPod)).err = none ∧
      ∃ sidecar,
        (sidecarInjectMutator configuredEnv (.pod bareEnabledPod)).containers.getLast? =
          some sidecar ∧
        sidecar.Image = "h3poteto/fluentd-forward:latest" ∧
        sidecar.Env =
          [ { Name := "SEND_TIMEOUT", Value := "60s" },
            { Name := "RECOVER_WAIT", Value := "10s" },
            { Name := "HARD_TIMEOUT", Value := "120s" },
            { Name := "AGGREGATOR_HOST", Value := "agg.internal" },
            { Name := "AGGREGATOR_PORT", Value := "24224" },
            { Name := "APPLICATION_LOG_DIR", Value := "/var/log/app" },
            { Name := "TAG_PREFIX", Value := "app" },
            { Name := "TIME_KEY", Value := "time" },
            { Name := "TIME_FORMAT", Value := "%Y-%m-%dT%H:%M:%S%z" } ] :=
  have h := defaults_without_override configuredEnv bareEnabledPod (by decide) (by decide)
    (by decide) (by decide) (by decide) (by decide) (by decide) (by decide) (by decide)
    (by decide) (by decide) (by decide) (by decide)
  ⟨by decide, by decide, by decide, h.1,
    h.2.imp fun _ hs => ⟨hs.1, hs.2.1, hs.2.2.trans (by decide)⟩⟩

/-! ## The Pod after a failed call, and invariants of a successful one -/

/-- C16: when the mutator returns an error on a gate-enabled Pod, the Pod it leaves
behind is the input Pod with the one empty-directory volume
fluentd-sidecar-injector-logs appended to its volume list: the annotations and
the container list (with every container's mounts) are those of the input. -/
theorem pod_after_failure (fluentdEnv : Env) (pod : Pod)
    (hgate : pod.Annotations.lookup (annotationPrefix ++ "/injection") = some "enabled")
    (herr : (sidecarInjectMutator fluentdEnv (.pod pod)).err ≠ none) :
    ∃ after,
      (sidecarInjectMutator fluentdEnv (.pod pod)).obj = .pod after ∧
      after.Annotations = pod.Annotations ∧
      after.Spec.Containers = pod.Spec.Containers ∧
      after.Spec.Volumes =
        pod.Spec.Volumes ++
          [{ Name := "fluentd-sidecar-injector-logs",
             Source :=
               { HostPath := none
                 EmptyDir := some { Medium := "", SizeLimit := none }
                 Secret := none } }] ∧
      after =
        { pod with
          Spec := { pod.Spec with
            Volumes := pod.Spec.Volumes ++
              [{ Name := "fluentd-sidecar-injector-logs",
                 Source :=
                   { HostPath := none
                     EmptyDir := some { Medium := "", SizeLimit := none }
                     Secret := none } }] } } :=
  ⟨_, sidecarInjectMutator_pod_of_failure fluentdEnv pod hgate herr, rfl, rfl, rfl, rfl⟩

/-- C16 at hostOnlyPod, on which the call fails for the missing log directory. -/
theorem pod_after_failure_witness :
    hostOnlyPod.Annotations.lookup (annotationPrefix ++ "/injection") = some "enabled" ∧
      (sidecarInjectMutator defaultEnv (.pod hostOnlyPod)).err ≠ none ∧
      ∃ after,
        (sidecarInjectMutator defaultEnv (.pod hostOnlyPod)).obj = .pod after ∧
        after.Annotations = hostOnlyPod.Annotations ∧
        after.Spec.Containers = [{ Name := "app", Image := "nginx" }] ∧
        after.Spec.Volumes =
          [{ Name := "fluentd-sidecar-injector-logs", Source := { EmptyDir := some {} } }] :=
  ⟨by decide, by decide,
    (pod_after_failure defaultEnv hostOnlyPod (by decide) (by decide)).imp
      fun _ h => ⟨h.1, h.2.1, h.2.2.1, h.2.2.2.1⟩⟩

/-- C17: on a successful mutation there is one mount, of the volume
fluentd-sidecar-injector-logs, read-write and at a non-empty path, that is the
last mount of every container of the result (each original container and the
sidecar), and a volume of that name is in the resulting volume list. -/
theorem last_mounts_reference_log_volume (fluentdEnv : Env) (pod : Pod)
    (hgate : pod.Annotations.lookup (annotationPrefix ++ "/injection") = some "enabled")
    (hok : (sidecarInjectMutator fluentdEnv (.pod pod)).err = none) :
    ∃ mount : VolumeMount,
      (∀ c ∈ (sidecarInjectMutator fluentdEnv (.pod pod)).containers,
        c.VolumeMounts.getLast? = some mount) ∧
      (∃ v ∈ (sidecarInjectMutator fluentdEnv (.pod pod)).volumes, v.Name = mount.Name) ∧
      mount.Name = "fluentd-sidecar-injector-logs" ∧
      mount.MountPath ≠ "" ∧
      mount.ReadOnly = false := by
  obtain ⟨⟨-, hd⟩, -⟩ := sidecarInjectMutator_pod_of_success fluentdEnv pod hgate hok
  refine ⟨logMount fluentdEnv pod.Annotations, ?_, ⟨logVolume, ?_, rfl⟩, rfl, hd, rfl⟩
  · intro c hc
    rw [containers_of_success fluentdEnv pod hgate hok, List.mem_append] at hc
    rcases hc with hc | hc
    · obtain ⟨c0, -, rfl⟩ := List.mem_map.1 hc
      simp
    · rw [List.mem_singleton] at hc
      subst hc
      rfl
  · rw [volumes_of_success fluentdEnv pod hgate hok]
    simp

/-- C17 at examplePod: the shared last mount is the one at /var/log/app. -/
theorem last_mounts_reference_log_volume_witness :
    examplePod.Annotations.lookup (annotationPrefix ++ "/injection") = some "enabled" ∧
      (sidecarInjectMutator defaultEnv (.pod examplePod)).err = none ∧
      (sidecarInjectMutator defaultEnv (.pod examplePod)).containers.length = 3 ∧
      ∃ mount : VolumeMount,
        (∀ c ∈ (sidecarInjectMutator defaultEnv (.pod examplePod)).containers,
          c.VolumeMounts.getLast? = some mount) ∧
        mount.Name = "fluentd-sidecar-injector-logs" ∧
        mount.MountPath ≠ "" :=
  ⟨by decide, by decide, by decide,
    (last_mounts_reference_log_volume defaultEnv examplePod (by decide) (by decide)).imp
      fun _ h => ⟨h.1, h.2.2.1, h.2.2.2.1⟩⟩

/-- C18: on a successful mutation the sidecar's environment has at least 5 and at
most 9 entries, the names of its entries are pairwise distinct, and it has an
entry named AGGREGATOR_HOST and an entry named APPLICATION_LOG_DIR, both with a
non-empty value. -/
theorem sidecar_env_shape (fluentdEnv : Env) (pod : Pod)
    (hgate : pod.Annotations.lookup (annotationPrefix ++ "/injection") = some "enabled")
    (hok : (sidecarInjectMutator fluentdEnv (.pod pod)).err = none) :
    ∃ sidecar,
      (sidecarInjectMutator fluentdEnv (.pod pod)).containers.getLast? = some sidecar ∧
      5 ≤ sidecar.Env.length ∧
      sidecar.Env.length ≤ 9 ∧
      (sidecar.Env.map (fun e => e.Name)).Nodup ∧
      (∃ e ∈ sidecar.Env, e.Name = "AGGREGATOR_HOST" ∧ e.Value ≠ "") ∧
      (∃ e ∈ sidecar.Env, e.Name = "APPLICATION_LOG_DIR" ∧ e.Value ≠ "") := by
  obtain ⟨⟨hh, hd⟩, -⟩ := sidecarInjectMutator_pod_of_success fluentdEnv pod hgate hok
  refine ⟨sidecarContainer fluentdEnv pod.Annotations,
    last_container_of_success fluentdEnv pod hgate hok, ?_, ?_, ?_,
    ⟨{ Name := "AGGREGATOR_HOST",
       Value := annotationOr pod.Annotations (annotationPrefix ++ "/aggregator-host")
         fluentdEnv.AggregatorHost }, ?_, rfl, hh⟩,
    ⟨{ Name := "APPLICATION_LOG_DIR",
       Value := annotationOr pod.Annotations (annotationPrefix ++ "/application-log-dir")
         fluentdEnv.ApplicationLogDir }, ?_, rfl, hd⟩⟩
  all_goals simp only [sidecarContainer, sidecarEnvList]
  all_goals
    by_cases h1 : annotationOr pod.Annotations (annotationPrefix ++ "/aggregator-port")
        fluentdEnv.AggregatorPort = "" <;>
    by_cases h2 : annotationOr pod.Annotations (annotationPrefix ++ "/tag-prefix")
        fluentdEnv.TagPrefix = "" <;>
    by_cases h3 : annotationOr pod.Annotations (annotationPrefix ++ "/time-key")
        fluentdEnv.TimeKey = "" <;>
    by_cases h4 : annotationOr pod.Annotations (annotationPrefix ++ "/time-format")
        fluentdEnv.TimeFormat = "" <;>
    simp [h1, h2, h3, h4]

/-- C18 at emptyPortPod, whose sidecar has eight variables. -/
theorem sidecar_env_shape_witness :
    emptyPortPod.Annotations.lookup (annotationPrefix ++ "/injection") = some "enabled" ∧
      (sidecarInjectMutator defaultEnv (.pod emptyPortPod)).err = none ∧
      ∃ sidecar,
        (sidecarInjectMutator defaultEnv (.pod emptyPortPod)).containers.getLast? =
          some sidecar ∧
        5 ≤ sidecar.Env.length ∧
        sidecar.Env.length ≤ 9 ∧
        (sidecar.Env.map (fun e => e.Name)).Nodup :=
  ⟨by decide, by decide,
    (sidecar_env_shape defaultEnv emptyPortPod (by decide) (by decide)).imp
      fun _ h => ⟨h.1, h.2.1, h.2.2.1, h.2.2.2.1⟩⟩

/-- C19: the outcome depends on the process defaults and the annotations only. For
two Pods whose annotation maps agree on every key, and the same defaults, the
mutator returns the same error (or none) and the same stop result on both; and
when it succeeds with the gate enabled, both results end with the same sidecar
container and both volume lists are the input list followed by the same
volume, whatever the containers and volumes of the two Pods are. -/
theorem outcome_depends_on_annotations_only (fluentdEnv : Env) (pod1 pod2 : Pod)
    (hann : ∀ key, pod1.Annotations.lookup key = pod2.Annotations.lookup key) :
    (sidecarInjectMutator fluentdEnv (.pod pod1)).err =
        (sidecarInjectMutator fluentdEnv (.pod pod2)).err ∧
      (sidecarInjectMutator fluentdEnv (.pod pod1)).stop =
        (sidecarInjectMutator fluentdEnv (.pod pod2)).stop ∧
      (pod1.Annotations.lookup (annotationPrefix ++ "/injection") = some "enabled" →
        (sidecarInjectMutator fluentdEnv (.pod pod1)).err = none →
        ∃ sidecar volume,
          (sidecarInjectMutator fluentdEnv (.pod pod1)).containers.getLast? = some sidecar ∧
          (sidecarInjectMutator fluentdEnv (.pod pod2)).containers.getLast? = some sidecar ∧
          (sidecarInjectMutator fluentdEnv (.pod pod1)).volumes =
            pod1.Spec.Volumes ++ [volume] ∧
          (sidecarInjectMutator fluentdEnv (.pod pod2)).volumes =
            pod2.Spec.Volumes ++ [volume]) := by
  have herr : (sidecarInjectMutator fluentdEnv (.pod pod1)).err =
      (sidecarInjectMutator fluentdEnv (.pod pod2)).err ∧
      (sidecarInjectMutator fluentdEnv (.pod pod1)).stop =
        (sidecarInjectMutator fluentdEnv (.pod pod2)).stop := by
    by_cases hgate : pod1.Annotations.lookup (annotationPrefix ++ "/injection") = some "enabled"
    · have hgate2 := (hann _).symm.trans hgate
      rw [sidecarInjectMutator_pod_eq fluentdEnv pod1 hgate,
        sidecarInjectMutator_pod_eq fluentdEnv pod2 hgate2,
        annotationOr_congr _ _ hann, annotationOr_congr _ _ hann]
      split_ifs <;> exact ⟨rfl, rfl⟩
    · have hgate2 : pod2.Annotations.lookup (annotationPrefix ++ "/injection") ≠
          some "enabled" := fun h => hgate ((hann _).trans h)
      rw [sidecarInjectMutator_pod_of_gate_closed fluentdEnv pod1 hgate,
        sidecarInjectMutator_pod_of_gate_closed fluentdEnv pod2 hgate2]
      exact ⟨rfl, rfl⟩
  refine ⟨herr.1, herr.2, ?_⟩
  intro hgate hok
  have hgate2 := (hann _).symm.trans hgate
  have hok2 := herr.1.symm.trans hok
  refine ⟨sidecarContainer fluentdEnv pod1.Annotations, logVolume,
    last_container_of_success fluentdEnv pod1 hgate hok, ?_,
    volumes_of_success fluentdEnv pod1 hgate hok,
    volumes_of_success fluentdEnv pod2 hgate2 hok2⟩
  rw [sidecarContainer_congr fluentdEnv _ _ hann]
  exact last_container_of_success fluentdEnv pod2 hgate2 hok2

/-- C19 at examplePod and examplePodVariant, which share their annotations and
differ in their containers and volumes: both calls succeed and end with the
same sidecar. -/
theorem outcome_depends_on_annotations_only_witness :
    (∀ key, examplePod.Annotations.lookup key = examplePodVariant.Annotations.lookup key) ∧
      examplePod.Spec.Containers ≠ examplePodVariant.Spec.Containers ∧
      examplePod.Spec.Volumes ≠ examplePodVariant.Spec.Volumes ∧
      (sidecarInjectMutator defaultEnv (.pod examplePodVariant)).err = none ∧
      ∃ sidecar,
        (sidecarInjectMutator defaultEnv (.pod examplePod)).containers.getLast? =
          some sidecar ∧
        (sidecarInjectMutator defaultEnv (.pod examplePodVariant)).containers.getLast? =
          some sidecar :=
  have h := outcome_depends_on_annotations_only defaultEnv examplePod examplePodVariant
    (fun _ => rfl)
  ⟨fun _ => rfl, by decide, by decide, h.1.symm.trans (by decide),
    match h.2.2 (by decide) (by decide) with
    | ⟨sidecar, _, h1, h2, _, _⟩ => ⟨sidecar, h1, h2⟩⟩

end Server
